import Mathlib

/-!
Verification development for the AudioFX module of The Bellmore
(`audiofx.js`): a Web Audio effects synth plus a look-ahead procedural
music scheduler.

The JavaScript module is shallowly embedded below.  Time values
(`ctx.currentTime`, note start/stop times, the `_musicScheduled`
watermark) are modelled as exact rationals; the decimal literals of the
source (`1.92`, `0.055`, ...) appear as the corresponding rational
constants.  The host is single-threaded and cooperative, so the
scheduler's mutable module-level state (`_musicPlaying`,
`_musicScheduled`, `_phraseCount`, `_musicTimer`) is modelled as an
explicit state record threaded through the operations, and each
operation also returns the list of note events it hands to the Web
Audio backend.  The audio-graph internals of a voice (oscillator type,
filter cutoffs, envelope interior breakpoints) are carried only as far
as the scheduled times and gains that the verified properties mention.
-/

namespace AudioFX

/-- One scheduled music note: the times and gains that `_note`,
`_melNote` and `_bassNote` hand to the Web Audio backend.  `envEnd` is
the time at which the gain envelope has ramped back to zero, `stopT`
the oscillator stop time (the last scheduled instant of the voice). -/
structure NoteEvent where
  freq : ℚ
  start : ℚ
  dur : ℚ
  peak : ℚ
  envEnd : ℚ
  stopT : ℚ

/-- Scheduler state: the module-level variables `_musicPlaying`,
`_musicScheduled`, `_phraseCount` and `_musicTimer` (the timer handle is
abstracted to whether a tick is armed). -/
structure MusicState where
  playing : Bool
  scheduled : ℚ
  phraseCount : ℕ
  timerArmed : Bool

/-- D pentatonic major scale `_PENTA` (Hz). -/
def _PENTA : List ℚ := [147, 294, 330, 370, 440, 494, 587, 659, 740, 880]

/-- Chord table `_CHORDS`: D maj, A maj, B min, G maj (three pitches each). -/
def _CHORDS : List (List ℚ) :=
  [ [294, 370, 440],
    [440, 554, 659],
    [247, 294, 370],
    [392, 494, 587] ]

/-- `_BAR = 1.92` seconds per bar. -/
def _BAR : ℚ := 192 / 100

/-- `_BEAT = _BAR / 4`. -/
def _BEAT : ℚ := _BAR / 4

/-- `_AHEAD = _BAR * 2`: the look-ahead window. -/
def _AHEAD : ℚ := _BAR * 2

/-- The chord-index computation of `_scheduleBars`:
`(_phraseCount >> 1) % _CHORDS.length`.  `_phraseCount` counts generated
2-bar blocks, so its value at generation time is the bar-pair index. -/
def _chordIndex (phraseCount : ℕ) : ℕ := (phraseCount >>> 1) % _CHORDS.length

/-- The chord `_CHORDS[ci]` used for the 2-bar block with the given
bar-pair index (source: `_scheduleBars`). -/
def chordUsed (phraseCount : ℕ) : List ℚ := _CHORDS.getD (_chordIndex phraseCount) []

/-- Modelled from the spec: the spec's `chordFor(barPairIndex)` — "returns
the chord at position `(barPairIndex) mod len(HarmonicPlan)`".  Stated
only for comparison with `chordUsed`, the selection the source performs. -/
def chordForSpec (barPairIndex : ℕ) : List ℚ :=
  _CHORDS.getD (barPairIndex % _CHORDS.length) []

/-- `_note(freq, startT, dur, peakGain, bus)`: smooth sine note.  The
envelope returns to zero at `startT + dur + 0.04` and the oscillator is
stopped `0.01` later. -/
def _note (freq startT dur peakGain : ℚ) : NoteEvent :=
  { freq := freq
    start := startT
    dur := dur
    peak := peakGain
    envEnd := startT + dur + 4 / 100
    stopT := startT + dur + 4 / 100 + 1 / 100 }

/-- `_melNote(freq, startT, dur, peakGain, bus)`: triangle melody note
through a lowpass.  Envelope zero at `startT + dur + 0.06`, oscillator
stop `0.01` later. -/
def _melNote (freq startT dur peakGain : ℚ) : NoteEvent :=
  { freq := freq
    start := startT
    dur := dur
    peak := peakGain
    envEnd := startT + dur + 6 / 100
    stopT := startT + dur + 6 / 100 + 1 / 100 }

/-- `_bassNote(freq, startT, bus)`: short sine thump an octave down.
Its decay reaches `0.001` at `startT + 0.45`, ramps to zero `0.02`
later, and the oscillator stops at `startT + 0.45 + 0.03`. -/
def _bassNote (freq startT : ℚ) : NoteEvent :=
  { freq := freq / 2
    start := startT
    dur := 45 / 100
    peak := 55 / 100
    envEnd := startT + 45 / 100 + 2 / 100
    stopT := startT + 45 / 100 + 3 / 100 }

/-- `_arp(chord, barStart, beat, bus)`: one `_note` per chord tone,
rolled by `i * 0.055`, duration `_BEAT * 1.6`, peak `0.28`. -/
def _arp (chord : List ℚ) (barStart beat : ℚ) : List NoteEvent :=
  chord.enum.map fun fi =>
    _note fi.2 (barStart + beat * _BEAT + (fi.1 : ℚ) * (55 / 1000)) (_BEAT * (16 / 10)) (28 / 100)

/-- The four melodic shape templates of `_phrase`. -/
def shapes : List (List ℕ) :=
  [ [4, 5, 6, 7, 6, 5, 4, 3],
    [3, 4, 6, 7, 9, 7, 6, 4],
    [5, 6, 7, 6, 4, 3, 4, 5],
    [7, 6, 5, 4, 5, 6, 7, 9] ]

/-- `_phrase(barStart, phraseIdx, bus)`: eight slots at `_BEAT / 2`
spacing; slots 3 and 7 are rests; each remaining slot is a `_melNote` of
duration `_BEAT * 0.48` and peak `0.55`, with pitch
`_PENTA[shape[i] % _PENTA.length]` for the shape selected by
`phraseIdx % shapes.length`. -/
def _phrase (barStart : ℚ) (phraseIdx : ℕ) : List NoteEvent :=
  let shape := shapes.getD (phraseIdx % shapes.length) []
  (List.range 8).filterMap fun i =>
    if i = 3 ∨ i = 7 then none
    else some (_melNote (_PENTA.getD (shape.getD i 0 % _PENTA.length) 0)
      (barStart + (i : ℚ) * (_BEAT / 2)) (_BEAT * (48 / 100)) (55 / 100))

/-- `_scheduleBars(fromT)`: if the music is not playing, do nothing.
Otherwise emit, for the chord of the current bar-pair index
`_phraseCount`: a bass note and two arpeggios in each of the two bars,
plus one melodic phrase; then increment `_phraseCount` and advance the
watermark `_musicScheduled` to `fromT + _BAR * 2`. -/
def _scheduleBars (s : MusicState) (fromT : ℚ) : MusicState × List NoteEvent :=
  if s.playing = false then (s, [])
  else
    let chord := chordUsed s.phraseCount
    let events :=
      [_bassNote (chord.getD 0 0) fromT]
        ++ _arp chord fromT 0
        ++ _arp chord fromT 2
        ++ [_bassNote (chord.getD 0 0) (fromT + _BAR)]
        ++ _arp chord (fromT + _BAR) 1
        ++ _arp chord (fromT + _BAR) 3
        ++ _phrase fromT s.phraseCount
    ({ s with phraseCount := s.phraseCount + 1, scheduled := fromT + _BAR * 2 }, events)

/-- The `while (_musicScheduled < ahead) _scheduleBars(_musicScheduled)`
loop of `_musicTick`.  The `s.playing = true` conjunct mirrors the fact
that the loop only runs under `_musicTick`'s guard (and `_scheduleBars`
leaves the state unchanged when not playing, so the guard is invariant
across iterations in the single-threaded host). -/
def _musicTickLoop (ahead : ℚ) (s : MusicState) : MusicState × List NoteEvent :=
  if h : s.playing = true ∧ s.scheduled < ahead then
    ((_musicTickLoop ahead (_scheduleBars s s.scheduled).1).1,
      (_scheduleBars s s.scheduled).2 ++ (_musicTickLoop ahead (_scheduleBars s s.scheduled).1).2)
  else (s, [])
termination_by (Int.ceil ((ahead - s.scheduled) / (_BAR * 2))).toNat
decreasing_by
  all_goals
    simp only [_scheduleBars, h.1, Bool.true_eq_false, if_false]
    have hB : (0 : ℚ) < _BAR * 2 := by norm_num [_BAR]
    have hx : (0 : ℚ) < ahead - s.scheduled := by linarith [h.2]
    have e1 : (ahead - (s.scheduled + _BAR * 2)) / (_BAR * 2)
        = (ahead - s.scheduled) / (_BAR * 2) - 1 := by
      field_simp
      ring
    rw [e1]
    have h2 : Int.ceil ((ahead - s.scheduled) / (_BAR * 2) - (1 : ℚ))
        = Int.ceil ((ahead - s.scheduled) / (_BAR * 2)) - 1 := by
      exact_mod_cast Int.ceil_sub_int ((ahead - s.scheduled) / (_BAR * 2)) 1
    rw [h2]
    have hpos : 0 < Int.ceil ((ahead - s.scheduled) / (_BAR * 2)) :=
      Int.ceil_pos.mpr (div_pos hx hB)
    omega

/-- `_musicTick()`: return at once if not playing; otherwise run the
scheduling loop up to `ctx.currentTime + _AHEAD` and re-arm the timer
(`setTimeout(_musicTick, _BAR * 1000 / 2)`, i.e. every 0.96 s). -/
def _musicTick (nowT : ℚ) (s : MusicState) : MusicState × List NoteEvent :=
  if s.playing = false then (s, [])
  else
    ({ (_musicTickLoop (nowT + _AHEAD) s).1 with timerArmed := true },
      (_musicTickLoop (nowT + _AHEAD) s).2)

/-- The state assignments of `musicStart`'s ready-callback that precede
its call to `_musicTick`:
`_musicPlaying = true; _musicScheduled = ctx.currentTime + 0.1;
_phraseCount = 0;`. -/
def musicStartReset (nowT : ℚ) (s : MusicState) : MusicState :=
  { s with playing := true, scheduled := nowT + 1 / 10, phraseCount := 0 }

/-- `musicStart()`: no-op if `_musicPlaying`; otherwise (once `ready()`
resolves — the model takes the pipeline as activated, with the clock at
`nowT`) perform the reset assignments and run the first `_musicTick`. -/
def musicStart (nowT : ℚ) (s : MusicState) : MusicState × List NoteEvent :=
  if s.playing = true then (s, [])
  else _musicTick nowT (musicStartReset nowT s)

/-- `musicStop()`: clear `_musicPlaying` and cancel the pending timer.
(The music-bus fade it also triggers lives in `GainState` below.) -/
def musicStop (s : MusicState) : MusicState :=
  { s with playing := false, timerArmed := false }

/-! ### Effects pipeline, `ready()` boundary and the one-shot sounds -/

/-- The platform audio pipeline as the module observes it:
whether `window.AudioContext` exists, whether the context is suspended,
whether `resume()` succeeds, and the live clock. -/
structure Pipeline where
  hasAudioContext : Bool
  suspended : Bool
  resumeOk : Bool
  currentTime : ℚ

/-- `ready()`: reject with `'No AudioContext'` when the platform has no
audio capability; otherwise resolve, resuming first when suspended (a
rejected `resume()` propagates as an error). -/
def ready (p : Pipeline) : Except String Unit :=
  if p.hasAudioContext = false then Except.error "No AudioContext"
  else if p.suspended = true then
    (if p.resumeOk = true then Except.ok () else Except.error "resume rejected")
  else Except.ok ()

/-- `now()`: the live `ctx.currentTime` once the context exists, `0`
before. -/
def now (p : Pipeline) : ℚ := if p.hasAudioContext = true then p.currentTime else 0

/-- Optional overrides accepted by the `play*` functions. -/
structure Opts where
  freq : Option ℚ
  duration : Option ℚ

/-- JavaScript `v || d` for an optional numeric field: the default is
used when the field is absent or `0` (falsy). -/
def orDefault (v : Option ℚ) (d : ℚ) : ℚ :=
  match v with
  | none => d
  | some x => if x = 0 then d else x

/-- A one-shot effect source: frequency, start time, and scheduled stop
time of one oscillator / buffer source. -/
structure FxEvent where
  freq : ℚ
  start : ℚ
  stopT : ℚ

/-- `_ding(t, freq)`: four oscillators (fundamental, two metallic
partials, detuned rattle), all started at `t` and stopped at
`tail + 0.01` where `tail = t + 1.1 + 0.04`. -/
def _ding (t freq : ℚ) : List FxEvent :=
  [ { freq := freq,                    start := t, stopT := t + 11 / 10 + 4 / 100 + 1 / 100 },
    { freq := freq * (2756 / 1000),   start := t, stopT := t + 11 / 10 + 4 / 100 + 1 / 100 },
    { freq := freq * (5405 / 1000),   start := t, stopT := t + 11 / 10 + 4 / 100 + 1 / 100 },
    { freq := freq * (10083 / 10000), start := t, stopT := t + 11 / 10 + 4 / 100 + 1 / 100 } ]

/-- The body of `playBell` behind `ready()`: two dings 0.18 s apart at
`opts.freq || 2637`. -/
def playBellE (p : Pipeline) (opts : Opts) : Except String (List FxEvent) :=
  Except.map
    (fun _ =>
      let freq := orDefault opts.freq 2637
      let t := now p
      _ding t freq ++ _ding (t + 18 / 100) freq)
    (ready p)

/-- `playBell(opts)`: the `.catch(function () {})` boundary — any
`ready()` failure is swallowed and nothing is scheduled. -/
def playBell (p : Pipeline) (opts : Opts) : List FxEvent :=
  match playBellE p opts with
  | Except.ok es => es
  | Except.error _ => []

/-- The body of `playGhost` behind `ready()`: two sines at `base` and
`base * 1.503` plus a 0.45 Hz LFO, all stopped at `tail + 0.01` with
`tail = t + (opts.duration || 2.4) + 0.06`. -/
def playGhostE (p : Pipeline) (opts : Opts) : Except String (List FxEvent) :=
  Except.map
    (fun _ =>
      let t := now p
      let base := orDefault opts.freq 196
      let tail := t + orDefault opts.duration (24 / 10) + 6 / 100
      [ { freq := base,                start := t, stopT := tail + 1 / 100 },
        { freq := base * (1503 / 1000), start := t, stopT := tail + 1 / 100 },
        { freq := 45 / 100,            start := t, stopT := tail + 1 / 100 } ])
    (ready p)

/-- `playGhost(opts)` with its catch boundary. -/
def playGhost (p : Pipeline) (opts : Opts) : List FxEvent :=
  match playGhostE p opts with
  | Except.ok es => es
  | Except.error _ => []

/-- The body of `playTick` behind `ready()`: one noise burst through a
highpass at `opts.freq || 2400`, stopped at `tail + 0.005` with
`tail = t + 0.055 + 0.008`. -/
def playTickE (p : Pipeline) (opts : Opts) : Except String (List FxEvent) :=
  Except.map
    (fun _ =>
      let t := now p
      [ { freq := orDefault opts.freq 2400, start := t,
          stopT := t + 55 / 1000 + 8 / 1000 + 5 / 1000 } ])
    (ready p)

/-- `playTick(opts)` with its catch boundary. -/
def playTick (p : Pipeline) (opts : Opts) : List FxEvent :=
  match playTickE p opts with
  | Except.ok es => es
  | Except.error _ => []

/-- The body of `playBuzz` behind `ready()`: one sawtooth at
`opts.freq || 120`, stopped at `tail + 0.005` with
`tail = t + 0.18 + 0.015`. -/
def playBuzzE (p : Pipeline) (opts : Opts) : Except String (List FxEvent) :=
  Except.map
    (fun _ =>
      let t := now p
      [ { freq := orDefault opts.freq 120, start := t,
          stopT := t + 18 / 100 + 15 / 1000 + 5 / 1000 } ])
    (ready p)

/-- `playBuzz(opts)` with its catch boundary. -/
def playBuzz (p : Pipeline) (opts : Opts) : List FxEvent :=
  match playBuzzE p opts with
  | Except.ok es => es
  | Except.error _ => []

/-! ### Bus gains: `setVolume` and `musicFade` -/

/-- The persistent gain state: whether the context (and with it the SFX
`master` bus) has been created, whether the music bus has been created,
the stored `_vol`, and the current ramp target of each bus gain. -/
structure GainState where
  hasCtx : Bool
  hasMusicBus : Bool
  vol : ℚ
  masterGain : ℚ
  musicGain : ℚ

/-- `setVolume(v)`: clamp to `[0, 1]`, store in `_vol`, and (when the
`master` bus exists) ramp the master gain toward the clamped value. -/
def setVolume (v : ℚ) (g : GainState) : GainState :=
  let newVol := max 0 (min 1 v)
  { g with
    vol := newVol
    masterGain := if g.hasCtx = true then newVol else g.masterGain }

/-- `musicFade(toVol, timeConstant)`: when the music bus and the context
exist, ramp the music-bus gain toward `toVol` (the time constant only
sets the ramp speed, not the target). -/
def musicFade (toVol timeConstant : ℚ) (g : GainState) : GainState :=
  if g.hasMusicBus = true ∧ g.hasCtx = true then { g with musicGain := toVol }
  else g

/-! ### Basic facts about `_scheduleBars` -/

theorem scheduleBars_of_not_playing (s : MusicState) (f : ℚ) (h : s.playing = false) :
    _scheduleBars s f = (s, []) := by
  simp [_scheduleBars, h]

theorem scheduleBars_fst_of_playing (s : MusicState) (f : ℚ) (h : s.playing = true) :
    (_scheduleBars s f).1
      = { s with phraseCount := s.phraseCount + 1, scheduled := f + _BAR * 2 } := by
  simp [_scheduleBars, h]

theorem chordUsed_length (n : ℕ) : (chordUsed n).length = 3 := by
  have hb : ∀ m < 4, (_CHORDS.getD m []).length = 3 := by decide
  refine hb _ ?_
  show (n >>> 1) % _CHORDS.length < 4
  have h4 : _CHORDS.length = 4 := rfl
  rw [h4]
  exact Nat.mod_lt _ (by norm_num)

theorem arp_event_start_bounds (chord : List ℚ) (f bt : ℚ) (h : chord.length = 3) :
    ∀ e ∈ _arp chord f bt,
      f + bt * _BEAT ≤ e.start ∧ e.start ≤ f + bt * _BEAT + 11 / 100 := by
  match chord, h with
  | [a, b, c], _ =>
    intro e he
    simp only [_arp, List.enum, List.enumFrom, List.map_cons, List.map_nil,
      List.mem_cons, List.not_mem_nil, or_false] at he
    rcases he with h1 | h2 | h3 <;> subst_eqs <;>
      refine ⟨?_, ?_⟩ <;> simp only [_note] <;> push_cast <;> linarith

theorem arp_head_mem (a : ℚ) (rest : List ℚ) (f bt : ℚ) :
    _note a (f + bt * _BEAT) (_BEAT * (16 / 10)) (28 / 100) ∈ _arp (a :: rest) f bt := by
  have he : f + bt * _BEAT + ((0 : ℕ) : ℚ) * (55 / 1000) = f + bt * _BEAT := by
    push_cast
    ring
  simp only [_arp, List.enum, List.enumFrom, List.map_cons, List.mem_cons]
  exact Or.inl (by rw [he])

theorem phrase_event_bounds (f : ℚ) (n : ℕ) :
    ∀ e ∈ _phrase f n,
      f ≤ e.start ∧ e.start ≤ f + 144 / 100 ∧ e.envEnd ≤ f + 17304 / 10000 := by
  intro e he
  simp only [_phrase, List.mem_filterMap, List.mem_range] at he
  obtain ⟨i, hi, hfe⟩ := he
  by_cases h37 : i = 3 ∨ i = 7
  · rw [if_pos h37] at hfe
    exact absurd hfe (by simp)
  · rw [if_neg h37] at hfe
    have he2 := Option.some.inj hfe
    push_neg at h37
    have hi6 : i ≤ 6 := by omega
    have hc6 : (i : ℚ) ≤ 6 := by exact_mod_cast hi6
    have hc0 : (0 : ℚ) ≤ (i : ℚ) := Nat.cast_nonneg i
    have hBEAT : _BEAT = 48 / 100 := by norm_num [_BEAT, _BAR]
    have h1 : (0 : ℚ) ≤ (i : ℚ) * (_BEAT / 2) := by
      rw [hBEAT]
      nlinarith
    have h2 : (i : ℚ) * (_BEAT / 2) ≤ 144 / 100 := by
      rw [hBEAT]
      nlinarith
    refine ⟨?_, ?_, ?_⟩ <;> rw [← he2] <;> simp only [_melNote] <;> rw [hBEAT] at h1 h2 ⊢ <;>
      linarith

theorem scheduleBars_event_bounds (s : MusicState) (f : ℚ) :
    ∀ e ∈ (_scheduleBars s f).2, f ≤ e.start ∧ e.start ≤ f + 347 / 100 := by
  intro e he
  by_cases hp : s.playing = true
  · simp only [_scheduleBars, hp, Bool.true_eq_false, if_false, List.mem_append,
      List.mem_singleton] at he
    have hc : (chordUsed s.phraseCount).length = 3 := chordUsed_length _
    have hBEAT : _BEAT = 48 / 100 := by norm_num [_BEAT, _BAR]
    have hBAR : _BAR = 192 / 100 := by norm_num [_BAR]
    rcases he with ((((((h1 | h2) | h3) | h4) | h5) | h6) | h7)
    · subst h1
      simp only [_bassNote]
      constructor <;> linarith
    · have hb := arp_event_start_bounds _ f 0 hc e h2
      rw [hBEAT] at hb
      constructor <;> linarith [hb.1, hb.2]
    · have hb := arp_event_start_bounds _ f 2 hc e h3
      rw [hBEAT] at hb
      constructor <;> linarith [hb.1, hb.2]
    · subst h4
      simp only [_bassNote]
      rw [hBAR]
      constructor <;> linarith
    · have hb := arp_event_start_bounds _ (f + _BAR) 1 hc e h5
      rw [hBEAT, hBAR] at hb
      constructor <;> linarith [hb.1, hb.2]
    · have hb := arp_event_start_bounds _ (f + _BAR) 3 hc e h6
      rw [hBEAT, hBAR] at hb
      constructor <;> linarith [hb.1, hb.2]
    · have hb := phrase_event_bounds f s.phraseCount e h7
      exact ⟨hb.1, by linarith [hb.2.1]⟩
  · rw [Bool.not_eq_true] at hp
    rw [scheduleBars_of_not_playing s f hp] at he
    exact absurd he (by simp)

theorem musicTickLoop_scheduled (ahead : ℚ) (s : MusicState) :
    ∃ k : ℕ, (_musicTickLoop ahead s).1.scheduled = s.scheduled + (k : ℚ) * (_BAR * 2) := by
  induction s using _musicTickLoop.induct ahead with
  | case1 s h ih =>
    obtain ⟨k, hk⟩ := ih
    refine ⟨k + 1, ?_⟩
    rw [_musicTickLoop.eq_def, dif_pos h]
    dsimp only
    rw [hk, scheduleBars_fst_of_playing s s.scheduled h.1]
    dsimp only
    push_cast
    ring
  | case2 s h =>
    refine ⟨0, ?_⟩
    rw [_musicTickLoop.eq_def, dif_neg h]
    dsimp only
    push_cast
    ring

theorem musicTickLoop_event_starts (ahead : ℚ) (s : MusicState) :
    ∀ e ∈ (_musicTickLoop ahead s).2, s.scheduled ≤ e.start := by
  induction s using _musicTickLoop.induct ahead with
  | case1 s h ih =>
    intro e he
    rw [_musicTickLoop.eq_def, dif_pos h] at he
    dsimp only at he
    rcases List.mem_append.mp he with h1 | h2
    · exact (scheduleBars_event_bounds s s.scheduled e h1).1
    · have h3 := ih e h2
      rw [scheduleBars_fst_of_playing s s.scheduled h.1] at h3
      dsimp only at h3
      have hB : (0 : ℚ) < _BAR * 2 := by norm_num [_BAR]
      linarith
  | case2 s h =>
    intro e he
    rw [_musicTickLoop.eq_def, dif_neg h] at he
    exact absurd he (by simp)

/-! ### Claim theorems -/

/-- C10: after `musicStop()` has run, a still-pending `_musicTick` or
`_scheduleBars` callback is a no-op: it leaves the state unchanged (no
watermark advance, no phrase-counter increment, no timer re-arm) and
schedules no note. -/
theorem c10_callbacks_noop_after_stop (s : MusicState) (t f : ℚ) :
    _musicTick t (musicStop s) = (musicStop s, []) ∧
    _scheduleBars (musicStop s) f = (musicStop s, []) := by
  constructor
  · simp [_musicTick, musicStop]
  · simp [_scheduleBars, musicStop]

/-- C7: `musicStart()` is idempotent — called in the Running state it
returns at once, leaving the watermark, phrase counter, timer and
running flag unchanged and scheduling nothing. -/
theorem c7_start_idempotent (s : MusicState) (t : ℚ) (h : s.playing = true) :
    musicStart t s = (s, []) := by
  simp [musicStart, h]

/-- Witness for C7 at a concrete running state. -/
theorem c7_start_idempotent_witness :
    ({ playing := true, scheduled := 5, phraseCount := 3, timerArmed := true } : MusicState).playing
        = true ∧
    musicStart 0 { playing := true, scheduled := 5, phraseCount := 3, timerArmed := true }
      = ({ playing := true, scheduled := 5, phraseCount := 3, timerArmed := true }, []) :=
  ⟨rfl, c7_start_idempotent _ 0 rfl⟩

/-- C9: `setVolume` and `musicFade` act on disjoint state: `setVolume`
never changes the music-bus gain, and `musicFade` never changes the
effects (master) bus gain or the stored `_vol`. -/
theorem c9_volume_fade_disjoint (g : GainState) (v toVol tc : ℚ) :
    (setVolume v g).musicGain = g.musicGain ∧
    (musicFade toVol tc g).masterGain = g.masterGain ∧
    (musicFade toVol tc g).vol = g.vol := by
  refine ⟨by simp [setVolume], ?_, ?_⟩ <;>
    · unfold musicFade
      split <;> rfl

/-- C5: the melodic phrase for a phrase counter is a pure function of
its arguments (it is a Lean function) and is periodic in the counter
with period `shapes.length`: counters that agree modulo the number of
shapes give identical note lists. -/
theorem c5_phrase_deterministic_periodic (barStart : ℚ) (n k : ℕ) :
    _phrase barStart (n + k * shapes.length) = _phrase barStart n := by
  simp [_phrase, Nat.add_mul_mod_self_right]

/-- C2 (divergence evidence): the chord selection the code actually
performs repeats the first chord on bar-pair index 1 — `chordUsed 1`
is still `_CHORDS[0]` — whereas the spec's `chordFor` advances to
`_CHORDS[1]`; and the claimed cycle closure
`chordFor(i) = chordFor(i + len(HarmonicPlan))` fails for the code's
selection at `i = 0`. -/
theorem c2_chord_divergence :
    chordUsed 1 = _CHORDS.getD 0 [] ∧
    chordForSpec 1 = _CHORDS.getD 1 [] ∧
    chordUsed 1 ≠ chordForSpec 1 ∧
    chordUsed (0 + _CHORDS.length) ≠ chordUsed 0 := by
  have e1 : chordUsed 1 = [294, 370, 440] := rfl
  have e2 : chordForSpec 1 = [440, 554, 659] := rfl
  have e3 : chordUsed (0 + _CHORDS.length) = [247, 294, 370] := rfl
  have e4 : chordUsed 0 = [294, 370, 440] := rfl
  refine ⟨rfl, rfl, ?_, ?_⟩
  · rw [e1, e2]
    norm_num
  · rw [e3, e4]
    norm_num

/-- C8: every public `play*` effect operation catches the failure of the
`ready()` activation step at its boundary: whenever `ready` rejects
(pipeline unavailable, or suspended and `resume()` fails), the
operation returns normally and degrades to a no-op — it schedules no
event. -/
theorem c8_play_noop_on_error (p : Pipeline) (o : Opts) (msg : String)
    (h : ready p = Except.error msg) :
    playBell p o = [] ∧ playGhost p o = [] ∧ playTick p o = [] ∧ playBuzz p o = [] := by
  refine ⟨?_, ?_, ?_, ?_⟩ <;>
    simp [playBell, playGhost, playTick, playBuzz,
      playBellE, playGhostE, playTickE, playBuzzE, h, Except.map]

/-- C3: for every tick invocation that runs while the scheduler is
Running, the watermark after the tick is ≥ the watermark before, and
the increase is an exact natural-number multiple of the 2-bar duration
`_BAR * 2` (= 3.84 s). -/
theorem c3_tick_watermark (s : MusicState) (t : ℚ) (h : s.playing = true) :
    s.scheduled ≤ (_musicTick t s).1.scheduled ∧
    ∃ k : ℕ, (_musicTick t s).1.scheduled = s.scheduled + (k : ℚ) * (_BAR * 2) := by
  have hdef : (_musicTick t s).1.scheduled = (_musicTickLoop (t + _AHEAD) s).1.scheduled := by
    simp [_musicTick, h]
  obtain ⟨k, hk⟩ := musicTickLoop_scheduled (t + _AHEAD) s
  have hnn : (0 : ℚ) ≤ (k : ℚ) * (_BAR * 2) :=
    mul_nonneg (Nat.cast_nonneg k) (by norm_num [_BAR])
  refine ⟨?_, k, ?_⟩
  · rw [hdef, hk]
    linarith
  · rw [hdef, hk]

/-- Witness for C3 at a concrete running state and clock. -/
theorem c3_tick_watermark_witness :
    ({ playing := true, scheduled := 0, phraseCount := 0, timerArmed := false } : MusicState).playing
        = true ∧
    (({ playing := true, scheduled := 0, phraseCount := 0, timerArmed := false } : MusicState).scheduled
        ≤ (_musicTick 0 { playing := true, scheduled := 0, phraseCount := 0, timerArmed := false }).1.scheduled ∧
      ∃ k : ℕ,
        (_musicTick 0 { playing := true, scheduled := 0, phraseCount := 0, timerArmed := false }).1.scheduled
          = ({ playing := true, scheduled := 0, phraseCount := 0, timerArmed := false } : MusicState).scheduled
              + (k : ℚ) * (_BAR * 2)) :=
  ⟨rfl, c3_tick_watermark _ 0 rfl⟩

/-- C4 (counterexample): in the 2-bar block generated at `fromT = 0`
from the initial running state, the first tone of the final-beat
arpeggio (start `1.92 + 3·0.48 = 3.36`, envelope end `4.168`) ends
after the post-block watermark `3.84`, so the watermark is not ≥ the
scheduled end of every event of the block. -/
theorem c4_counterexample :
    ¬ ∀ e ∈ (_scheduleBars { playing := true, scheduled := 0, phraseCount := 0, timerArmed := false } 0).2,
        e.envEnd
          ≤ (_scheduleBars { playing := true, scheduled := 0, phraseCount := 0, timerArmed := false } 0).1.scheduled := by
  intro hall
  have hred : (_scheduleBars ({ playing := true, scheduled := 0, phraseCount := 0, timerArmed := false } : MusicState) 0).2
      = [_bassNote ((chordUsed 0).getD 0 0) 0]
          ++ _arp (chordUsed 0) 0 0
          ++ _arp (chordUsed 0) 0 2
          ++ [_bassNote ((chordUsed 0).getD 0 0) (0 + _BAR)]
          ++ _arp (chordUsed 0) (0 + _BAR) 1
          ++ _arp (chordUsed 0) (0 + _BAR) 3
          ++ _phrase 0 0 := rfl
  have hmem0 : _note 294 ((0 + _BAR) + 3 * _BEAT) (_BEAT * (16 / 10)) (28 / 100)
      ∈ _arp (chordUsed 0) (0 + _BAR) 3 := by
    rw [show chordUsed 0 = [294, 370, 440] from rfl]
    exact arp_head_mem 294 _ (0 + _BAR) 3
  have hmem : _note 294 ((0 + _BAR) + 3 * _BEAT) (_BEAT * (16 / 10)) (28 / 100)
      ∈ (_scheduleBars ({ playing := true, scheduled := 0, phraseCount := 0, timerArmed := false } : MusicState) 0).2 := by
    rw [hred]
    exact List.mem_append.mpr (Or.inl (List.mem_append.mpr (Or.inr hmem0)))
  have hw : (_scheduleBars ({ playing := true, scheduled := 0, phraseCount := 0, timerArmed := false } : MusicState) 0).1.scheduled
      = 0 + _BAR * 2 := by
    rw [scheduleBars_fst_of_playing _ _ rfl]
  have hcontra := hall _ hmem
  rw [hw] at hcontra
  norm_num [_note, _BEAT, _BAR] at hcontra

/-- C4 (amended): after every 2-bar block generation while Running, the
new watermark is strictly greater than the scheduled start of every
event of the block, and is ≥ the envelope end of every event of the
melodic phrase — the events generated last in the block.  (It is not ≥
the envelope end of every event of the block: the final-beat arpeggio
tones ring past the watermark, see the counterexample.) -/
theorem c4_watermark_vs_events (s : MusicState) (f : ℚ) (h : s.playing = true) :
    (∀ e ∈ (_scheduleBars s f).2, e.start < (_scheduleBars s f).1.scheduled) ∧
    (∀ e ∈ _phrase f s.phraseCount, e.envEnd ≤ (_scheduleBars s f).1.scheduled) := by
  have hw : (_scheduleBars s f).1.scheduled = f + _BAR * 2 := by
    rw [scheduleBars_fst_of_playing s f h]
  constructor
  · intro e he
    have hb := (scheduleBars_event_bounds s f e he).2
    rw [hw]
    have hBAR : _BAR = 192 / 100 := by norm_num [_BAR]
    rw [hBAR]
    linarith
  · intro e he
    have hb := (phrase_event_bounds f s.phraseCount e he).2.2
    rw [hw]
    have hBAR : _BAR = 192 / 100 := by norm_num [_BAR]
    rw [hBAR]
    linarith

/-- Witness for C4 (amended) at the initial running state, `fromT = 0`. -/
theorem c4_watermark_vs_events_witness :
    ({ playing := true, scheduled := 1 / 10, phraseCount := 0, timerArmed := true } : MusicState).playing
        = true ∧
    ((∀ e ∈ (_scheduleBars { playing := true, scheduled := 1 / 10, phraseCount := 0, timerArmed := true } (1 / 10)).2,
        e.start
          < (_scheduleBars { playing := true, scheduled := 1 / 10, phraseCount := 0, timerArmed := true } (1 / 10)).1.scheduled) ∧
      (∀ e ∈ _phrase (1 / 10)
          ({ playing := true, scheduled := 1 / 10, phraseCount := 0, timerArmed := true } : MusicState).phraseCount,
        e.envEnd
          ≤ (_scheduleBars { playing := true, scheduled := 1 / 10, phraseCount := 0, timerArmed := true } (1 / 10)).1.scheduled)) :=
  ⟨rfl, c4_watermark_vs_events _ (1 / 10) rfl⟩

/-- C6: from any running state, `musicStop()` immediately followed by
`musicStart()` (with the clock at `t`) resets the phrase counter to 0
and the watermark to `t + 0.1 > t` before generation resumes; after the
complete restart (including its first tick) the watermark is still
strictly greater than the clock, and every note event scheduled by the
restart starts strictly after the clock. -/
theorem c6_stop_then_start (s : MusicState) (t : ℚ) (h : s.playing = true) :
    (musicStartReset t (musicStop s)).phraseCount = 0 ∧
    t < (musicStartReset t (musicStop s)).scheduled ∧
    t < (musicStart t (musicStop s)).1.scheduled ∧
    ∀ e ∈ (musicStart t (musicStop s)).2, t < e.start := by
  have hstart : musicStart t (musicStop s)
      = _musicTick t (musicStartReset t (musicStop s)) := by
    simp [musicStart, musicStop]
  have hresetPlaying : (musicStartReset t (musicStop s)).playing = true := rfl
  have hresetSched : (musicStartReset t (musicStop s)).scheduled = t + 1 / 10 := rfl
  have htickSched : (_musicTick t (musicStartReset t (musicStop s))).1.scheduled
      = (_musicTickLoop (t + _AHEAD) (musicStartReset t (musicStop s))).1.scheduled := by
    simp [_musicTick, hresetPlaying]
  have htickEv : (_musicTick t (musicStartReset t (musicStop s))).2
      = (_musicTickLoop (t + _AHEAD) (musicStartReset t (musicStop s))).2 := by
    simp [_musicTick, hresetPlaying]
  obtain ⟨k, hk⟩ := musicTickLoop_scheduled (t + _AHEAD) (musicStartReset t (musicStop s))
  rw [hresetSched] at hk
  have hknn : (0 : ℚ) ≤ (k : ℚ) * (_BAR * 2) :=
    mul_nonneg (Nat.cast_nonneg k) (by norm_num [_BAR])
  refine ⟨rfl, ?_, ?_, ?_⟩
  · rw [hresetSched]
    linarith
  · rw [hstart, htickSched, hk]
    linarith
  · intro e he
    rw [hstart, htickEv] at he
    have hlb := musicTickLoop_event_starts (t + _AHEAD) (musicStartReset t (musicStop s)) e he
    rw [hresetSched] at hlb
    linarith

/-- Witness for C6 at a concrete running state, restart clock `t = 2`. -/
theorem c6_stop_then_start_witness :
    ({ playing := true, scheduled := 7, phraseCount := 5, timerArmed := true } : MusicState).playing
        = true ∧
    ((musicStartReset 2 (musicStop { playing := true, scheduled := 7, phraseCount := 5, timerArmed := true })).phraseCount = 0 ∧
      (2 : ℚ) < (musicStartReset 2 (musicStop { playing := true, scheduled := 7, phraseCount := 5, timerArmed := true })).scheduled ∧
      (2 : ℚ) < (musicStart 2 (musicStop { playing := true, scheduled := 7, phraseCount := 5, timerArmed := true })).1.scheduled ∧
      ∀ e ∈ (musicStart 2 (musicStop { playing := true, scheduled := 7, phraseCount := 5, timerArmed := true })).2,
        (2 : ℚ) < e.start) :=
  ⟨rfl, c6_stop_then_start _ 2 rfl⟩

theorem musicStart_zero_state :
    (musicStart 0 { playing := false, scheduled := 0, phraseCount := 0, timerArmed := false }).1.scheduled
        = 394 / 100 ∧
    (musicStart 0 { playing := false, scheduled := 0, phraseCount := 0, timerArmed := false }).1.phraseCount
        = 1 := by
  have hstep : musicStart 0 ({ playing := false, scheduled := 0, phraseCount := 0, timerArmed := false } : MusicState)
      = _musicTick 0 { playing := true, scheduled := 0 + 1 / 10, phraseCount := 0, timerArmed := false } := rfl
  have htick : (_musicTick 0 ({ playing := true, scheduled := 0 + 1 / 10, phraseCount := 0, timerArmed := false } : MusicState)).1
      = { (_musicTickLoop (0 + _AHEAD) ({ playing := true, scheduled := 0 + 1 / 10, phraseCount := 0, timerArmed := false } : MusicState)).1 with
          timerArmed := true } := rfl
  have hb1 : (_scheduleBars ({ playing := true, scheduled := 0 + 1 / 10, phraseCount := 0, timerArmed := false } : MusicState) (0 + 1 / 10)).1
      = ({ playing := true, scheduled := 0 + 1 / 10 + _BAR * 2, phraseCount := 0 + 1, timerArmed := false } : MusicState) := by
    rw [scheduleBars_fst_of_playing _ _ rfl]
  have hl1 : _musicTickLoop (0 + _AHEAD) ({ playing := true, scheduled := 0 + 1 / 10, phraseCount := 0, timerArmed := false } : MusicState)
      = ((_musicTickLoop (0 + _AHEAD)
            (_scheduleBars ({ playing := true, scheduled := 0 + 1 / 10, phraseCount := 0, timerArmed := false } : MusicState) (0 + 1 / 10)).1).1,
          (_scheduleBars ({ playing := true, scheduled := 0 + 1 / 10, phraseCount := 0, timerArmed := false } : MusicState) (0 + 1 / 10)).2
            ++ (_musicTickLoop (0 + _AHEAD)
                  (_scheduleBars ({ playing := true, scheduled := 0 + 1 / 10, phraseCount := 0, timerArmed := false } : MusicState) (0 + 1 / 10)).1).2) := by
    rw [_musicTickLoop.eq_def]
    rw [dif_pos ⟨rfl, by norm_num [_AHEAD, _BAR]⟩]
  have hl2 : _musicTickLoop (0 + _AHEAD) ({ playing := true, scheduled := 0 + 1 / 10 + _BAR * 2, phraseCount := 0 + 1, timerArmed := false } : MusicState)
      = ({ playing := true, scheduled := 0 + 1 / 10 + _BAR * 2, phraseCount := 0 + 1, timerArmed := false }, []) := by
    rw [_musicTickLoop.eq_def]
    rw [dif_neg (by norm_num [_AHEAD, _BAR])]
  have hloop : (_musicTickLoop (0 + _AHEAD) ({ playing := true, scheduled := 0 + 1 / 10, phraseCount := 0, timerArmed := false } : MusicState)).1
      = ({ playing := true, scheduled := 0 + 1 / 10 + _BAR * 2, phraseCount := 0 + 1, timerArmed := false } : MusicState) := by
    rw [hl1]
    dsimp only
    rw [hb1, hl2]
  constructor
  · rw [hstep, htick]
    dsimp only
    rw [hloop]
    dsimp only
    norm_num [_BAR]
  · rw [hstep, htick]
    dsimp only
    rw [hloop]

/-- C1 (counterexample): `musicStart()` invoked with the clock at 0.0
(look-ahead window `_AHEAD = 3.84` s, tick interval 0.96 s): after the
first tick the phrase counter is 1, not 2, so the claimed conjunction
fails. -/
theorem c1_counterexample :
    ¬ (384 / 100 ≤ (musicStart 0 { playing := false, scheduled := 0, phraseCount := 0, timerArmed := false }).1.scheduled ∧
        (musicStart 0 { playing := false, scheduled := 0, phraseCount := 0, timerArmed := false }).1.phraseCount = 2) := by
  intro hcl
  have h1 := hcl.2
  rw [musicStart_zero_state.2] at h1
  exact absurd h1 (by norm_num)

/-- C1 (amended): `musicStart()` invoked with the clock at 0.0: after
the first scheduler tick completes, the watermark is ≥ 3.84 (it equals
3.94) and the phrase counter equals 1 — the 3.84 s look-ahead window is
exactly one 2-bar block, so the first tick generates one block. -/
theorem c1_first_tick_one_block :
    384 / 100 ≤ (musicStart 0 { playing := false, scheduled := 0, phraseCount := 0, timerArmed := false }).1.scheduled ∧
    (musicStart 0 { playing := false, scheduled := 0, phraseCount := 0, timerArmed := false }).1.phraseCount = 1 := by
  refine ⟨?_, musicStart_zero_state.2⟩
  rw [musicStart_zero_state.1]
  norm_num

/-- Witness for C8: the pipeline with no `AudioContext` constructor. -/
theorem c8_play_noop_on_error_witness :
    ready { hasAudioContext := false, suspended := false, resumeOk := true, currentTime := 0 }
      = Except.error "No AudioContext" ∧
    playBell { hasAudioContext := false, suspended := false, resumeOk := true, currentTime := 0 }
        { freq := none, duration := none } = [] ∧
    playGhost { hasAudioContext := false, suspended := false, resumeOk := true, currentTime := 0 }
        { freq := none, duration := none } = [] ∧
    playTick { hasAudioContext := false, suspended := false, resumeOk := true, currentTime := 0 }
        { freq := none, duration := none } = [] ∧
    playBuzz { hasAudioContext := false, suspended := false, resumeOk := true, currentTime := 0 }
        { freq := none, duration := none } = [] := by
  refine ⟨rfl, ?_⟩
  exact c8_play_noop_on_error _ _ "No AudioContext" rfl

end AudioFX
